import Mathlib

/-!
Verification of the resume_parser section-grouping and classification pipeline

This file is a shallow embedding, in Lean 4, of the core parsing pipeline of the
`resume_parser` repository:

* `src/src/parsers/content_processor.py` — grouping of extracted document
  elements into resume sections (`ContentProcessor`);
* `src/src/parsers/enhanced_unstructured_parser.py` — the spatial/typographic
  content-type classifier, the spatial sort, and the content assembler with its
  final whitespace-normalization pass (`EnhancedUnstructuredParser`);
* `src/src/parsers/document_parser.py` — the extraction adapter
  (`DocumentParser.parse_document` and `_parse_with_fallback`).

Modelling conventions:

* Python strings are Lean `String`s (lists of unicode code points, matching
  Python's `str`: `len`, indexing and slicing count code points).  Helper
  functions (`pyStrip`, `pyLower`, `pyIsUpper`, …) reproduce the Python string
  methods used by the source for the character repertoire the source handles
  (ASCII letters and digits plus the bullet glyphs appearing in its patterns).
* Python `float` values are modelled as rationals `ℚ`.  The only float
  arithmetic in the modelled code is confidence scoring, which adds members of
  {0.5, 0.3, 0.2} and clamps at 1.0; every reachable IEEE-double value of that
  computation (0.5, 0.7, 0.8, 1.0) is exactly the value of the corresponding
  rational computation, so all comparisons agree with the `ℚ` model.
* Python regular expressions are embedded through a small backtracking engine
  (`PyRe` below) whose alternation/option/star operators follow Python's
  priority order (leftmost match wins, greedy quantifiers, left alternative
  preferred), with capture groups and the zero-width assertions `^` (with and
  without `re.MULTILINE`), `$` and `\b`.
* Python `dict`s keyed by strings/enums are embedded as insertion-ordered
  association lists, matching the guaranteed iteration order of Python ≥ 3.7
  dicts (including `collections.defaultdict`).
* External capabilities (the `unstructured` partitioner, `pdfplumber`,
  `python-docx`) are inputs of the model: their outcome — a value, an
  exception, or an ImportError — is passed in explicitly, and the adapter's
  `try`/`except` control flow is embedded with `Except`.
-/

namespace ResumeParser

/-! ## Python string primitives -/

/-- Python whitespace, as recognised by `str.strip()`, `str.isspace()` and
the regex class `\s` on `str`: the ASCII whitespace characters plus the
Unicode whitespace code points. -/
def isPySpace (c : Char) : Bool :=
  c == ' ' || c == '\t' || c == '\n' || c == '\r' || c == '\x0b' || c == '\x0c' ||
  ('\x1c' ≤ c && c ≤ '\x1f') || c == '\x85' || c == '\xa0' || c == '\u1680' ||
  ('\u2000' ≤ c && c ≤ '\u200a') || c == '\u2028' || c == '\u2029' ||
  c == '\u202f' || c == '\u205f' || c == '\u3000'

/-- Python `\w` (ASCII range): letters, digits, underscore. -/
def isPyWord (c : Char) : Bool :=
  c.isAlpha || c.isDigit || c == '_'

/-- The `str.strip()` on a list of characters: drop leading and trailing
whitespace. -/
def pyStripList (cs : List Char) : List Char :=
  (((cs.dropWhile isPySpace).reverse).dropWhile isPySpace).reverse

/-- Python `str.strip()`. -/
def pyStrip (s : String) : String := ⟨pyStripList s.data⟩

/-- Python `str.lower()` (ASCII letters; no other cased characters occur in
the modelled inputs and patterns). -/
def pyLower (s : String) : String := ⟨s.data.map Char.toLower⟩

/-- Python `str.isupper()`: at least one cased character, and no cased
character is lowercase (ASCII letters are the cased characters that occur). -/
def pyIsUpper (s : String) : Bool :=
  s.data.any (fun c => c.isUpper || c.isLower) && s.data.all (fun c => !c.isLower)

/-- Python `str.endswith(c)` for a single-character suffix. -/
def pyEndsWith (s : String) (c : Char) : Bool :=
  match s.data.getLast? with
  | some c' => c' == c
  | none => false

/-- Python `x.endswith(('.', ':', ';', '!', '?'))` — the terminal-punctuation
test used throughout the assembler. -/
def endsWithTerminalPunct (s : String) : Bool :=
  [ '.', ':', ';', '!', '?' ].any (pyEndsWith s)

/-- Python substring containment `needle in haystack`, on character lists. -/
def listContainsSub (needle haystack : List Char) : Bool :=
  match haystack with
  | [] => needle.isEmpty
  | _ :: rest => needle.isPrefixOf haystack || listContainsSub needle rest

/-- Python substring containment `needle in haystack`. -/
def pyContains (haystack needle : String) : Bool :=
  listContainsSub needle.data haystack.data

/-- Python `str.split('\n')`: split at every newline, keeping empty pieces. -/
def pySplitNL (s : String) : List String :=
  (s.data.splitOnP (· == '\n')).map fun cs => (⟨cs⟩ : String)

/-- Python `len(s)`: the number of code points. -/
def pyLen (s : String) : Nat := s.data.length

/-- First character of a nonempty Python string (`s[0]`); the source only
evaluates it on stripped nonempty text, so the `[]` case is unreachable
there (Python would raise `IndexError`). -/
def pyFirstChar (s : String) : Char :=
  match s.data with
  | c :: _ => c
  | [] => ' '

/-! ## A small Python-regex engine

Backtracking matcher in continuation-passing style.  Alternation prefers the
left branch, `star`/`plus`/`opt` are greedy, and the match attempted first is
the leftmost one — exactly Python `re`'s priority rules.  A fuel argument
bounds `star` unrolling; since every starred subexpression of the repository's
patterns consumes at least one character per iteration (and the engine demands
progress, as Python does), fuel `length + 1` is always sufficient. -/

namespace PyRe

/-- The fragment of Python regex syntax used by the repository. -/
inductive RE where
  | eps
  | cls (p : Char → Bool)
  | seq (a b : RE)
  | alt (a b : RE)
  | star (r : RE)
  | group (idx : Nat) (r : RE)
  | bol   -- `^` without re.MULTILINE
  | bolM  -- `^` with re.MULTILINE
  | eol   -- `$`: end of string, or just before a trailing newline
  | wordB -- `\b`

/-- Matcher state: absolute position, previous character, remaining input. -/
structure MState where
  pos : Nat
  prev : Option Char
  rest : List Char

/-- Captured groups: group index paired with the captured characters; the
head of the list is the most recent capture. -/
abbrev Caps := List (Nat × List Char)

/-- The `\b`: word/non-word boundary between the previous character and the next
one (string edges count as non-word). -/
def wordBoundaryAt (prev : Option Char) (rest : List Char) : Bool :=
  let a := match prev with | some c => isPyWord c | none => false
  let b := match rest with | c :: _ => isPyWord c | [] => false
  a != b

/-- One level of the matcher: structural recursion over the pattern, with
`deeper` handling the recursive unrolling of `star` at one fuel level lower.
Backtracks through all alternatives in Python's priority order; `star`
demands progress in each iteration (as Python's engine does for repeated
empty matches). -/
def goRE (deeper : RE → MState → Caps →
      (MState → Caps → Option (MState × Caps)) → Option (MState × Caps)) :
    RE → MState → Caps →
    (MState → Caps → Option (MState × Caps)) → Option (MState × Caps)
  | .eps, st, cs, k => k st cs
  | .cls p, st, cs, k =>
    match st.rest with
    | [] => none
    | c :: rest' => if p c then k ⟨st.pos + 1, some c, rest'⟩ cs else none
  | .bol, st, cs, k => if st.pos == 0 then k st cs else none
  | .bolM, st, cs, k =>
    if st.pos == 0 || st.prev == some '\n' then k st cs else none
  | .eol, st, cs, k =>
    if st.rest.isEmpty || st.rest == ['\n'] then k st cs else none
  | .wordB, st, cs, k =>
    if wordBoundaryAt st.prev st.rest then k st cs else none
  | .seq a b, st, cs, k => goRE deeper a st cs (fun st' cs' => goRE deeper b st' cs' k)
  | .alt a b, st, cs, k =>
    (goRE deeper a st cs k).orElse (fun _ => goRE deeper b st cs k)
  | .group i r, st, cs, k =>
    goRE deeper r st cs (fun st' cs' =>
      k st' ((i, st.rest.take (st.rest.length - st'.rest.length)) :: cs'))
  | .star r, st, cs, k =>
    (goRE deeper r st cs (fun st' cs' =>
      if st'.pos == st.pos then none else deeper (.star r) st' cs' k)).orElse
    (fun _ => k st cs)

/-- Core matcher.  `mrun fuel r st cs k` tries to match `r` at `st` and calls
the continuation `k` on success.  Each `star` unrolling spends one unit of
fuel; since every starred subexpression of the repository's patterns consumes
at least one character per iteration, fuel `length + 1` is always enough. -/
def mrun : Nat → RE → MState → Caps →
    (MState → Caps → Option (MState × Caps)) → Option (MState × Caps)
  | 0, _, st, cs, k => k st cs
  | fuel + 1, r, st, cs, k => goRE (mrun fuel) r st cs k

/-- Try to match `r` starting exactly at `st` (Python `re.match` semantics at
that position).  Returns the end state and the captures. -/
def findAt (r : RE) (st : MState) : Option (MState × Caps) :=
  mrun (st.rest.length + 1) r st [] (fun st' cs => some (st', cs))

/-- Leftmost match search: try each start position from left to right
(including the end-of-string position), as Python `re.search` does.
Returns the start position, end state and captures of the first match. -/
def findFirstAux (r : RE) : Nat → Option Char → List Char → Option (Nat × MState × Caps)
  | pos, prev, [] =>
    match findAt r ⟨pos, prev, []⟩ with
    | some (st', cs) => some (pos, st', cs)
    | none => none
  | pos, prev, c :: rest' =>
    match findAt r ⟨pos, prev, c :: rest'⟩ with
    | some (st', cs) => some (pos, st', cs)
    | none => findFirstAux r (pos + 1) (some c) rest'

/-- Truthiness of Python `re.search(r, s)`. -/
def reSearch (r : RE) (s : String) : Bool :=
  (findFirstAux r 0 none s.data).isSome

/-- Truthiness of Python `re.match(r, s)` (anchored at the start). -/
def reMatchStart (r : RE) (s : String) : Bool :=
  (findAt r ⟨0, none, s.data⟩).isSome

/-- Captured text of group `i` (most recent capture; empty if absent). -/
def capGet (cs : Caps) (i : Nat) : List Char :=
  match cs.find? (fun p => p.1 == i) with
  | some p => p.2
  | none => []

/-- The `re.sub` body: repeatedly find the leftmost match from the current
position, emit the skipped text and the instantiated template, and continue
after the match (advancing one character on an empty match, which the
repository's patterns never produce). -/
def subAux (tmpl : Caps → List Char) (r : RE) :
    Nat → Nat → Option Char → List Char → List Char
  | 0, _, _, rest => rest
  | fuel + 1, pos, prev, rest =>
    match findFirstAux r pos prev rest with
    | none => rest
    | some (mpos, st', cs) =>
      let skipped := rest.take (mpos - pos)
      if st'.pos == mpos then
        match st'.rest with
        | [] => skipped ++ tmpl cs
        | c :: rest' =>
          skipped ++ tmpl cs ++ c :: subAux tmpl r fuel (st'.pos + 1) (some c) rest'
      else
        skipped ++ tmpl cs ++ subAux tmpl r fuel st'.pos st'.prev st'.rest

/-- Python `re.sub(r, template, s)`. -/
def pySub (r : RE) (tmpl : Caps → List Char) (s : String) : String :=
  ⟨subAux tmpl r (s.data.length + 1) 0 none s.data⟩

/-! ### Pattern-building helpers -/

/-- A literal character. -/
def chr (c : Char) : RE := .cls (· == c)

/-- A literal character under `re.IGNORECASE`. -/
def chrCI (c : Char) : RE := .cls (fun x => x.toLower == c.toLower)

/-- Sequence a list of patterns. -/
def seqs (l : List RE) : RE := l.foldr .seq .eps

/-- A literal string. -/
def lit (s : String) : RE := seqs (s.data.map chr)

/-- A literal string under `re.IGNORECASE`. -/
def litCI (s : String) : RE := seqs (s.data.map chrCI)

/-- Alternation over a nonempty list (left-preferring). -/
def alts : List RE → RE
  | [] => .eps
  | [r] => r
  | r :: rest => .alt r (alts rest)

/-- Greedy `+`. -/
def plus (r : RE) : RE := .seq r (.star r)

/-- Greedy `?`. -/
def opt (r : RE) : RE := .alt r .eps

/-- The `r{n}`. -/
def repN (n : Nat) (r : RE) : RE := seqs (List.replicate n r)

/-- Greedy `r{0,n}`. -/
def upTo : Nat → RE → RE
  | 0, _ => .eps
  | n + 1, r => .alt (.seq r (upTo n r)) .eps

/-- Greedy `r{m,}`. -/
def atLeast (n : Nat) (r : RE) : RE := .seq (repN n r) (.star r)

/-- Greedy `r{m,n}`. -/
def repRange (m n : Nat) (r : RE) : RE := .seq (repN m r) (upTo (n - m) r)

/-- The `\s`. -/
def ws : RE := .cls isPySpace

/-- The `\d`. -/
def dig : RE := .cls Char.isDigit

/-- The `\w`. -/
def wrd : RE := .cls isPyWord

/-- The `.` (any character except newline). -/
def anyNoNL : RE := .cls (· != '\n')

/-- A character class given by an explicit list of characters. -/
def oneOf (cs : List Char) : RE := .cls (fun c => cs.contains c)

/-- The `[A-Z]`. -/
def clsAZ : RE := .cls (fun c => 'A' ≤ c && c ≤ 'Z')

/-- The `[a-z]`. -/
def clsaz : RE := .cls (fun c => 'a' ≤ c && c ≤ 'z')

/-- The `[0-9]`. -/
def cls09 : RE := .cls (fun c => '0' ≤ c && c ≤ '9')

end PyRe

/-!
Part: The spatial/typographic classifier
(`EnhancedUnstructuredParser` in `src/src/parsers/enhanced_unstructured_parser.py`)
-/

namespace Enhanced

open PyRe

/-- The `ResumeElement` dataclass.  `coordinates` is the
`Optional[Dict[str, float]]` field, embedded as an insertion-ordered
association list with rational values. -/
structure ResumeElement where
  text : String
  element_type : String
  coordinates : Option (List (String × ℚ)) := none
  page_number : Option Int := none
  spatial_position : Option String := none
  confidence : ℚ := 1
  font_size : Option ℚ := none
  is_bold : Bool := false
  is_italic : Bool := false
deriving DecidableEq, Repr

/-- Python `dict` lookup on an association list (keys are unique, so the
first hit is the binding). -/
def dictGet (d : List (String × ℚ)) (k : String) : Option ℚ :=
  (d.find? (fun p => p.1 == k)).map (·.2)

/-- The `bullet_patterns` of `_is_likely_bullet_point`: leading bullet glyph,
dash/asterisk marker, lettered/numbered list marker, OCR artifacts, with or
without leading spaces. -/
def bullet_patterns : List RE :=
  [ seqs [oneOf ['•', '·', '▪', '▫', '◦', '‣', '⁃'], plus ws],
    seqs [oneOf ['-', '*', '+'], plus ws],
    seqs [clsaz, chr ')', plus ws],
    seqs [plus cls09, chr '.', plus ws],
    seqs [chr 'e', plus ws],
    seqs [chr '¢', plus ws],
    seqs [.star ws, oneOf ['•', '·', '▪', '▫', '◦', '‣', '⁃'], plus ws],
    seqs [.star ws, oneOf ['-', '*', '+'], plus ws] ]

/-- The `bullet_content_patterns`: `^[A-Z][a-z]+\s+` and `^[A-Z][A-Z\s]+\s+`. -/
def bullet_content_patterns : List RE :=
  [ seqs [clsAZ, plus clsaz, plus ws],
    seqs [clsAZ, plus (.alt clsAZ ws), plus ws] ]

/-- True iff one of the eight explicit bullet-marker patterns matches at
the start of the text (`re.match`). -/
def matches_bullet_marker (text : String) : Bool :=
  bullet_patterns.any (fun p => reMatchStart p text)

/-- True iff one of the two bullet content patterns matches at the start
and the text is shorter than 100 characters. -/
def matches_bullet_content (text : String) : Bool :=
  bullet_content_patterns.any (fun p => reMatchStart p text && pyLen text < 100)

/-- The `_is_likely_bullet_point`. -/
def is_likely_bullet_point (text : String) : Bool :=
  matches_bullet_marker text || matches_bullet_content text

/-- The `date_patterns` of `_is_likely_date_range` (searched with
`re.IGNORECASE`). -/
def date_patterns : List RE :=
  [ seqs [repN 4 dig, .star ws, oneOf ['-', '–'], .star ws, repN 4 dig],
    seqs [repN 4 dig, .star ws, oneOf ['-', '–'], .star ws, litCI "present"],
    seqs [repN 4 dig, .star ws, oneOf ['-', '–'], .star ws, litCI "current"],
    seqs [plus wrd, plus ws, repN 4 dig, .star ws, oneOf ['-', '–'], .star ws,
          plus wrd, plus ws, repN 4 dig] ]

/-- The `_is_likely_date_range`. -/
def is_likely_date_range (text : String) : Bool :=
  date_patterns.any (fun p => reSearch p text)

/-- The `company_patterns` of `_is_likely_company_name` (matched with
`re.match`). -/
def company_patterns : List RE :=
  [ seqs [clsAZ, plus clsaz, plus ws, clsAZ, plus clsaz],
    seqs [clsAZ, plus (.alt clsAZ ws), .eol],
    seqs [.star anyNoNL, lit "Inc", opt (chr '.'), .eol],
    seqs [.star anyNoNL, lit "Corp", opt (chr '.'), .eol],
    seqs [.star anyNoNL, lit "LLC", .eol],
    seqs [.star anyNoNL, lit "Ltd", opt (chr '.'), .eol] ]

/-- The `_is_likely_company_name`. -/
def is_likely_company_name (text : String) : Bool :=
  company_patterns.any (fun p => reMatchStart p text)

/-- The `job_title_patterns` (searched with `re.IGNORECASE`). -/
def job_title_patterns : List RE :=
  [ seqs [litCI "Developer", .eol], seqs [litCI "Engineer", .eol],
    seqs [litCI "Manager", .eol], seqs [litCI "Lead", .eol],
    seqs [litCI "Architect", .eol], seqs [litCI "Analyst", .eol],
    seqs [litCI "Consultant", .eol], seqs [litCI "Specialist", .eol],
    seqs [litCI "Coordinator", .eol], seqs [litCI "Director", .eol],
    seqs [litCI "Supervisor", .eol], seqs [litCI "Administrator", .eol],
    seqs [litCI "Designer", .eol] ]

/-- The `job_title_words`. -/
def job_title_words : List String :=
  [ "developer", "engineer", "manager", "lead", "architect", "analyst",
    "consultant", "specialist", "coordinator", "director", "supervisor",
    "administrator", "designer", "programmer", "coder", "analyst" ]

/-- The `_is_likely_job_title`. -/
def is_likely_job_title (text : String) : Bool :=
  job_title_patterns.any (fun p => reSearch p text) ||
  job_title_words.any (fun w => pyContains (pyLower text) w)

/-- The `content_words` of `_contains_content_indicators` (with the duplicates
present in the source). -/
def content_words : List String :=
  [ "experience", "developed", "implemented", "managed", "created", "designed",
    "worked", "used", "utilized", "skilled", "proficient", "expertise",
    "responsible", "involved", "participated", "collaborated", "led",
    "maintained", "configured", "deployed", "integrated", "optimized",
    "experienced", "strong", "deep", "demonstrated", "professional",
    "extensive", "proficient", "skilled", "adept", "substantial",
    "working", "developing", "creating", "monitoring", "involving",
    "using", "utilizing", "leveraged", "architect", "engineer",
    "certified", "delivered", "directed", "served", "maintained",
    "supported", "scoped", "boosted", "handled", "engineered",
    "shaped", "cut", "facilitated", "redesigned", "collaborated" ]

/-- The `_contains_content_indicators`. -/
def contains_content_indicators (text : String) : Bool :=
  content_words.any (fun w => pyContains (pyLower text) w)

/-- The `sentence_indicators` of `_is_standalone_text`. -/
def sentence_indicators : List String :=
  [ "the", "and", "or", "but", "in", "on", "at", "to", "for", "of", "with" ]

/-- The `_is_standalone_text`. -/
def is_standalone_text (text : String) : Bool :=
  if pyLen text < 20 && !endsWithTerminalPunct text then true
  else if pyIsUpper text && pyLen text < 30 then true
  else if !(sentence_indicators.any (fun i => pyContains (pyLower text) i)) &&
          pyLen text < 40 then true
  else false

/-- The `_is_likely_section_header`.  The chain of early returns of the Python
body, in order; the `text[0].isupper()` branch is only reached on nonempty
(stripped) text. -/
def is_likely_section_header (element : ResumeElement) (text : String) : Bool :=
  if pyLen text > 50 then false
  else if pyEndsWith text ':' then true
  else if pyIsUpper text || ((pyFirstChar text).isUpper && pyLower text ≠ text) then
    -- "But not if it's clearly content"
    !(contains_content_indicators text)
  else if element.is_bold then true
  else if (match element.font_size with
           | some v => if v == 0 then false else decide (v > 12)
           | none => false) then true
  else if is_standalone_text text then true
  else false

/-- The `_is_likely_subsection_header`. -/
def is_likely_subsection_header (element : ResumeElement) (text : String) : Bool :=
  if pyLen text < 30 && pyEndsWith text ':' then true
  else if element.is_bold && pyLen text < 30 then true
  else false

/-- The `_classify_content_type`.  The `section_keywords`, `current_section` and
`in_content_block` parameters of the source are never read by the body, so
they are omitted here.  First match wins, in the source's order. -/
def classify_content_type (element : ResumeElement) (text : String) : String :=
  if is_likely_bullet_point text then "bullet_point"
  else if is_likely_date_range text then "date_range"
  else if is_likely_company_name text then "company_name"
  else if is_likely_job_title text then "job_title"
  else if is_likely_section_header element text then "section_header"
  else if is_likely_subsection_header element text then "subsection_header"
  else "content"

/-- The `_get_section_name`: first section whose keyword list has a hit; the
assembler always calls it with the empty `section_keywords` dict. -/
def get_section_name (text : String)
    (section_keywords : List (String × List String)) : Option String :=
  (section_keywords.find?
    (fun p => p.2.any (fun kw => pyContains (pyLower text) kw))).map (·.1)

/-- The sort key of `_sort_elements_spatially`: `(page, center_y, center_x)`,
with `or 0` defaults for a missing page and missing/absent coordinate
entries (`x or 0` equals `x` for every number, so the embedding uses the
looked-up value directly). -/
def sort_key (element : ResumeElement) : Int × ℚ × ℚ :=
  ( (match element.page_number with | some p => p | none => 0),
    (match element.coordinates with
     | some coords => (dictGet coords "center_y").getD 0
     | none => 0),
    (match element.coordinates with
     | some coords => (dictGet coords "center_x").getD 0
     | none => 0) )

/-- Lexicographic comparison of sort keys (Python tuple `<=`). -/
def keyLE (a b : Int × ℚ × ℚ) : Prop :=
  a.1 < b.1 ∨ (a.1 = b.1 ∧ (a.2.1 < b.2.1 ∨ (a.2.1 = b.2.1 ∧ a.2.2 ≤ b.2.2)))

instance : DecidableRel keyLE := fun _ _ => by unfold keyLE; infer_instance

/-- The element ordering used by `sorted(elements, key=sort_key)`. -/
def elemLE (a b : ResumeElement) : Prop := keyLE (sort_key a) (sort_key b)

instance : DecidableRel elemLE := fun _ _ => by unfold elemLE; infer_instance

/-- The `_sort_elements_spatially`: Python's `sorted` is a stable sort by the
key; insertion sort with a total preorder implements exactly that. -/
def sort_elements_spatially (elements : List ResumeElement) : List ResumeElement :=
  elements.insertionSort elemLE

/-- The final normalization pass of `_generate_enhanced_as_is_content`
(source lines 471–512): the twelve `re.sub` rewrites, in order, followed by
`strip()`. -/
def normalize_content (raw_content : String) : String :=
  -- replace 3+ consecutive newlines with two
  let s := pySub (atLeast 3 (chr '\n')) (fun _ => "\n\n".data) raw_content
  -- replace 2+ consecutive spaces with one
  let s := pySub (atLeast 2 (chr ' ')) (fun _ => " ".data) s
  -- \s+([.,:;!?]) → \1
  let s := pySub (seqs [plus ws, .group 1 (oneOf ['.', ',', ':', ';', '!', '?'])])
    (fun cs => capGet cs 1) s
  -- ([.,:;!?])([A-Za-z]) → \1 \2
  let s := pySub (seqs [.group 1 (oneOf ['.', ',', ':', ';', '!', '?']),
                        .group 2 (.cls Char.isAlpha)])
    (fun cs => capGet cs 1 ++ ' ' :: capGet cs 2) s
  -- ([#]+)\s*([^#\n]+) → \1 \2
  let s := pySub (seqs [.group 1 (plus (chr '#')), .star ws,
                        .group 2 (plus (.cls fun c => c != '#' && c != '\n'))])
    (fun cs => capGet cs 1 ++ ' ' :: capGet cs 2) s
  -- ^\s*e\s+ → '• '  (re.MULTILINE)
  let s := pySub (seqs [.bolM, .star ws, chr 'e', plus ws]) (fun _ => "• ".data) s
  -- ([a-zA-Z0-9._%+-]+)\s*\.\s*([a-zA-Z0-9._%+-]+)\s*@\s*([a-zA-Z0-9.-]+)\s*\.\s*([a-zA-Z]{2,})
  --   → \1.\2@\3.\4
  let emailCls : RE := .cls fun c => c.isAlpha || c.isDigit || c == '.' || c == '_' ||
                                     c == '%' || c == '+' || c == '-'
  let domainCls : RE := .cls fun c => c.isAlpha || c.isDigit || c == '.' || c == '-'
  let s := pySub (seqs [.group 1 (plus emailCls), .star ws, chr '.', .star ws,
                        .group 2 (plus emailCls), .star ws, chr '@', .star ws,
                        .group 3 (plus domainCls), .star ws, chr '.', .star ws,
                        .group 4 (atLeast 2 (.cls Char.isAlpha))])
    (fun cs => capGet cs 1 ++ '.' :: capGet cs 2 ++ '@' :: capGet cs 3 ++ '.' :: capGet cs 4) s
  -- \s*\|\s* → ' | '
  let s := pySub (seqs [.star ws, chr '|', .star ws]) (fun _ => " | ".data) s
  -- (\d{4})\s*[-–]\s*(\d{4}|present|current) → '\1 – \2'
  let s := pySub (seqs [.group 1 (repN 4 dig), .star ws, oneOf ['-', '–'], .star ws,
                        .group 2 (alts [repN 4 dig, lit "present", lit "current"])])
    (fun cs => capGet cs 1 ++ ' ' :: '–' :: ' ' :: capGet cs 2) s
  -- remove excessive newlines again
  let s := pySub (atLeast 3 (chr '\n')) (fun _ => "\n\n".data) s
  -- \(\s+ → '('
  let s := pySub (seqs [chr '(', plus ws]) (fun _ => "(".data) s
  -- \s+\) → ')'
  let s := pySub (seqs [plus ws, chr ')']) (fun _ => ")".data) s
  pyStrip s

/-- The mutable locals of the assembly loop of
`_generate_enhanced_as_is_content`. -/
structure GenState where
  content_parts : List String
  current_page : Option Int
  current_y : Option ℚ
  current_x : Option ℚ
  current_section : Option String
  in_content_block : Bool
deriving Repr

/-- Starting state of the assembly loop. -/
def genInit : GenState :=
  { content_parts := [], current_page := none, current_y := none,
    current_x := none, current_section := none, in_content_block := false }

/-- One iteration of the assembly loop of
`_generate_enhanced_as_is_content`: page-break marker, tiered vertical and
horizontal spacing from coordinate deltas, then the fragment's text with
markup chosen by its classified content type.  An empty (stripped) text
skips the fragment without updating the position trackers, exactly as the
source's `continue` does. -/
def generate_step (st : GenState) (element : ResumeElement) : GenState :=
  let coords := match element.coordinates with | some c => c | none => []
  let element_y := (dictGet coords "center_y").getD 0
  let element_x := (dictGet coords "center_x").getD 0
  let element_page : Int := match element.page_number with | some p => p | none => 0
  -- handle page breaks
  let pageBreak : Bool := match st.current_page with
    | some p => element_page != p
    | none => false
  let content_parts := if pageBreak then st.content_parts ++ ["\n\n---\n\n"]
                       else st.content_parts
  let current_y := if pageBreak then none else st.current_y
  let current_section := if pageBreak then none else st.current_section
  let in_content_block := if pageBreak then false else st.in_content_block
  -- handle vertical spacing
  let content_parts := match current_y with
    | none => content_parts
    | some cy =>
      let y_distance := |element_y - cy|
      if y_distance > 80 then content_parts ++ ["\n\n"]
      else if y_distance > 40 then content_parts ++ ["\n"]
      else if y_distance > 15 then content_parts ++ ["\n"]
      else content_parts
  let in_content_block := match current_y with
    | none => in_content_block
    | some cy => if |element_y - cy| > 80 then false else in_content_block
  -- handle horizontal spacing (`element_page == current_page` is False when
  -- `current_page` is None)
  let content_parts := match st.current_x, st.current_page with
    | some cx, some p =>
      if element_page = p then
        let x_distance := |element_x - cx|
        if x_distance > 150 then content_parts ++ ["    "]
        else if x_distance > 50 then content_parts ++ ["  "]
        else content_parts
      else content_parts
    | _, _ => content_parts
  let element_text := pyStrip element.text
  -- skip empty elements (`continue`: no state update beyond the spacing)
  if element_text = "" then
    { st with content_parts := content_parts, current_y := current_y,
              current_section := current_section,
              in_content_block := in_content_block }
  else
    let content_type := classify_content_type element element_text
    let trailing : List String :=
      if !endsWithTerminalPunct element_text then [" "] else []
    let headerSep : List String :=
      if !content_parts.isEmpty && content_parts.getLast? ≠ some "\n\n"
      then ["\n"] else []
    let (content_parts, current_section, in_content_block) :=
      if content_type = "section_header" then
        (content_parts ++ headerSep ++ ["## " ++ element_text ++ "\n"],
         get_section_name element_text [], true)
      else if content_type = "subsection_header" then
        (content_parts ++ headerSep ++ ["### " ++ element_text ++ "\n"],
         current_section, true)
      else if content_type = "bullet_point" then
        (content_parts ++ ["• " ++ element_text] ++ trailing,
         current_section, in_content_block)
      else if content_type = "company_name" then
        (content_parts ++ ["**" ++ element_text ++ "**"] ++ trailing,
         current_section, in_content_block)
      else if content_type = "date_range" then
        (content_parts ++ ["*" ++ element_text ++ "*"] ++ trailing,
         current_section, in_content_block)
      else if content_type = "job_title" then
        (content_parts ++ ["**" ++ element_text ++ "**"] ++ trailing,
         current_section, in_content_block)
      else
        (content_parts ++ [element_text] ++ trailing,
         current_section, in_content_block)
    { content_parts := content_parts,
      current_page := some element_page,
      current_y := some element_y,
      current_x := some element_x,
      current_section := current_section,
      in_content_block := in_content_block }

/-- The `_generate_enhanced_as_is_content`: spatial sort, assembly loop, then the
final normalization pass. -/
def generate_enhanced_as_is_content (resume_elements : List ResumeElement) : String :=
  let sorted_elements := sort_elements_spatially resume_elements
  let final := sorted_elements.foldl generate_step genInit
  normalize_content (String.join final.content_parts)

end Enhanced

/-!
Part: Grouping elements into resume sections
(`ContentProcessor` in `src/src/parsers/content_processor.py`, over the models
of `src/src/models/resume_elements.py`)
-/

namespace Processor

open PyRe

/-- The `ElementType` (the element categories of the `unstructured` library). -/
inductive ElementType where
  | title
  | narrative_text
  | list_item
  | table
  | header
  | footer
  | email_address
  | address
  | phone_number
deriving DecidableEq, Repr

/-- The `ResumeSection`. -/
inductive ResumeSection where
  | contact
  | summary
  | objective
  | skills
  | experience
  | education
  | certifications
  | projects
  | awards
  | references
  | unknown
deriving DecidableEq, Repr

/-- The `DocumentElement`.  The metadata dict only ever holds the integer entries
written by the fallback paths (`line_number`, `page_number`); nothing in the
modelled pipeline reads it. -/
structure DocumentElement where
  element_type : ElementType
  text : String
  metadata : List (String × Int) := []
  page_number : Option Int := none
  coordinates : Option (List (String × ℚ)) := none
deriving DecidableEq, Repr

/-- The `GroupedElements`. -/
structure GroupedElements where
  «section» : ResumeSection
  elements : List DocumentElement
  confidence : ℚ := 0
deriving DecidableEq, Repr

/-- The `_build_section_patterns`: the insertion-ordered dict from sections to
their header regexes (all searched with `re.IGNORECASE` against lowered,
stripped text). -/
def section_patterns : List (ResumeSection × List RE) :=
  [ (.contact,
     [ seqs [.bol, litCI "contact", .star ws,
             opt (.group 1 (alts [litCI "information", litCI "info", litCI "details"])), .eol],
       seqs [.bol, litCI "personal", .star ws,
             .group 1 (alts [litCI "information", litCI "info", litCI "details"]), .eol],
       seqs [.bol, litCI "contact", .star ws, litCI "me", .eol] ]),
    (.summary,
     [ seqs [.bol, opt (.group 1 (seqs [litCI "professional", .star ws])), litCI "summary", .eol],
       seqs [.bol, opt (.group 1 (seqs [litCI "career", .star ws])), litCI "summary", .eol],
       seqs [.bol, litCI "profile", .eol],
       seqs [.bol, litCI "overview", .eol],
       seqs [.bol, litCI "about", .star ws, opt (.group 1 (litCI "me")), .eol],
       seqs [.bol, litCI "executive", .star ws, litCI "summary", .eol] ]),
    (.objective,
     [ seqs [.bol, opt (.group 1 (seqs [litCI "career", .star ws])), litCI "objective", .eol],
       seqs [.bol, litCI "goal", .eol],
       seqs [.bol, litCI "career", .star ws, litCI "goal", .eol] ]),
    (.skills,
     [ seqs [.bol, opt (.group 1 (seqs [litCI "technical", .star ws])), litCI "skills", .eol],
       seqs [.bol, litCI "core", .star ws, litCI "competencies", .eol],
       seqs [.bol, litCI "competencies", .eol],
       seqs [.bol, litCI "expertise", .eol],
       seqs [.bol, litCI "technologies", .eol],
       seqs [.bol, litCI "programming", .star ws, litCI "languages", .eol],
       seqs [.bol, litCI "tools", .star ws,
             opt (.group 1 (seqs [litCI "and", .star ws, litCI "technologies"])), .eol] ]),
    (.experience,
     [ seqs [.bol, opt (.group 1 (.alt (seqs [litCI "work", .star ws])
                                       (seqs [litCI "professional", .star ws]))),
             litCI "experience", .eol],
       seqs [.bol, litCI "employment", .star ws, litCI "history", .eol],
       seqs [.bol, litCI "career", .star ws, litCI "history", .eol],
       seqs [.bol, litCI "work", .star ws, litCI "history", .eol],
       seqs [.bol, litCI "professional", .star ws, litCI "background", .eol] ]),
    (.education,
     [ seqs [.bol, litCI "education", .eol],
       seqs [.bol, litCI "academic", .star ws, litCI "background", .eol],
       seqs [.bol, litCI "educational", .star ws, litCI "background", .eol],
       seqs [.bol, litCI "qualifications", .eol],
       seqs [.bol, litCI "academic", .star ws, litCI "qualifications", .eol] ]),
    (.certifications,
     [ seqs [.bol, litCI "certification", opt (chrCI 's'), .eol],
       seqs [.bol, litCI "certificate", opt (chrCI 's'), .eol],
       seqs [.bol, litCI "professional", .star ws, litCI "certification", opt (chrCI 's'), .eol],
       seqs [.bol, litCI "license", opt (chrCI 's'), .star ws,
             opt (.group 1 (seqs [litCI "and", .star ws, litCI "certification",
                                  opt (chrCI 's')])), .eol] ]),
    (.projects,
     [ seqs [.bol, litCI "project", opt (chrCI 's'), .eol],
       seqs [.bol, litCI "key", .star ws, litCI "project", opt (chrCI 's'), .eol],
       seqs [.bol, litCI "notable", .star ws, litCI "project", opt (chrCI 's'), .eol],
       seqs [.bol, litCI "selected", .star ws, litCI "project", opt (chrCI 's'), .eol] ]),
    (.awards,
     [ seqs [.bol, litCI "award", opt (chrCI 's'), .eol],
       seqs [.bol, litCI "honor", opt (chrCI 's'), .star ws,
             opt (.group 1 (seqs [litCI "and", .star ws, litCI "award", opt (chrCI 's')])), .eol],
       seqs [.bol, litCI "achievement", opt (chrCI 's'), .eol],
       seqs [.bol, litCI "recognition", .eol] ]),
    (.references,
     [ seqs [.bol, litCI "reference", opt (chrCI 's'), .eol],
       seqs [.bol, litCI "professional", .star ws, litCI "reference", opt (chrCI 's'), .eol],
       seqs [.bol, litCI "reference", opt (chrCI 's'), .star ws, litCI "available", .star ws,
             litCI "upon", .star ws, litCI "request", .eol] ]) ]

/-- The `_build_contact_patterns` (searched with `re.IGNORECASE`). -/
def contact_patterns : List RE :=
  [ -- email: \b[A-Za-z0-9._%+-]+@[A-Za-z0-9.-]+\.[A-Z|a-z]{2,}\b
    seqs [.wordB,
          plus (.cls fun c => c.isAlpha || c.isDigit || c == '.' || c == '_' ||
                              c == '%' || c == '+' || c == '-'),
          chr '@',
          plus (.cls fun c => c.isAlpha || c.isDigit || c == '.' || c == '-'),
          chr '.',
          atLeast 2 (.cls fun c => c.isAlpha || c == '|'),
          .wordB],
    -- phone: \b\d{3}[-.]?\d{3}[-.]?\d{4}\b
    seqs [.wordB, repN 3 dig, opt (oneOf ['-', '.']), repN 3 dig,
          opt (oneOf ['-', '.']), repN 4 dig, .wordB],
    -- phone with parentheses: \(\d{3}\)\s*\d{3}[-.]?\d{4}
    seqs [chr '(', repN 3 dig, chr ')', .star ws, repN 3 dig,
          opt (oneOf ['-', '.']), repN 4 dig],
    -- international phone: \+\d{1,3}[-.\s]?\d{1,14}
    seqs [chr '+', repRange 1 3 dig,
          opt (.cls fun c => c == '-' || c == '.' || isPySpace c),
          repRange 1 14 dig],
    -- address: \b\d{1,5}\s+\w+\s+(street|st|avenue|ave|road|rd|drive|dr|lane|ln|boulevard|blvd)
    seqs [.wordB, repRange 1 5 dig, plus ws, plus wrd, plus ws,
          .group 1 (alts [litCI "street", litCI "st", litCI "avenue", litCI "ave",
                          litCI "road", litCI "rd", litCI "drive", litCI "dr",
                          litCI "lane", litCI "ln", litCI "boulevard", litCI "blvd"])],
    -- social: \b(linkedin\.com/in/|github\.com/|twitter\.com/)
    seqs [.wordB, .group 1 (alts [litCI "linkedin.com/in/", litCI "github.com/",
                                  litCI "twitter.com/"])] ]

/-- The `_detect_section`: only Title/Header/short-NarrativeText fragments can
start a section; first matching pattern-table entry wins. -/
def detect_section (element : DocumentElement) : ResumeSection :=
  let text := pyStrip (pyLower element.text)
  let valid_types : List ElementType := [.title, .header, .narrative_text]
  if !(valid_types.contains element.element_type) then .unknown
  else if element.element_type == .narrative_text && pyLen text > 50 then .unknown
  else
    match section_patterns.find? (fun p => p.2.any (fun pat => reSearch pat text)) with
    | some p => p.1
    | none => .unknown

/-- The `_is_contact_element`: contact category, or a contact-pattern hit on the
raw text. -/
def is_contact_element (element : DocumentElement) : Bool :=
  if [ElementType.email_address, .phone_number, .address].contains element.element_type
  then true
  else contact_patterns.any (fun p => reSearch p element.text)

/-- The `_calculate_section_confidence` (Python floats as rationals; every
reachable IEEE value of this computation coincides with the rational one). -/
def calculate_section_confidence («section» : ResumeSection)
    (elements : List DocumentElement) : ℚ :=
  if elements.isEmpty then 0
  else
    let confidence : ℚ := 0.5
    let has_header := elements.any fun e =>
      e.element_type == .title || e.element_type == .header
    let confidence := if has_header then confidence + 0.3 else confidence
    let has_structured_contact := elements.any fun e =>
      e.element_type == .email_address || e.element_type == .phone_number
    let confidence :=
      if «section» == .contact && has_structured_contact then confidence + 0.2 else confidence
    let has_lists := elements.any fun e => e.element_type == .list_item
    let confidence :=
      if «section» == .skills && has_lists then confidence + 0.2 else confidence
    min confidence 1.0

/-- The `defaultdict(list)` of `_group_elements_by_section`, embedded as an
insertion-ordered association list: appending to an existing key extends its
list in place; a fresh key is appended at the end (Python dicts iterate in
first-insertion order). -/
def addToSection (m : List (ResumeSection × List DocumentElement))
    (k : ResumeSection) (e : DocumentElement) :
    List (ResumeSection × List DocumentElement) :=
  match m with
  | [] => [(k, [e])]
  | (k', l) :: rest =>
    if k' == k then (k', l ++ [e]) :: rest else (k', l) :: addToSection rest k e

/-- One iteration of the grouping loop: maybe transition `current_section`,
then append the element to the contact group (override) or to the current
group. -/
def group_step (st : ResumeSection × List (ResumeSection × List DocumentElement))
    (element : DocumentElement) :
    ResumeSection × List (ResumeSection × List DocumentElement) :=
  let detected_section := detect_section element
  let current_section := if detected_section ≠ ResumeSection.unknown
                         then detected_section else st.1
  if is_contact_element element then
    (current_section, addToSection st.2 .contact element)
  else
    (current_section, addToSection st.2 current_section element)

/-- The `_group_elements_by_section`. -/
def group_elements_by_section (elements : List DocumentElement) :
    List GroupedElements :=
  let final := elements.foldl group_step (ResumeSection.unknown, [])
  (final.2.filter (fun p => !p.2.isEmpty)).map fun p =>
    { «section» := p.1, elements := p.2,
      confidence := calculate_section_confidence p.1 p.2 }

end Processor

/-!
Part: The extraction adapter
(`DocumentParser` in `src/src/parsers/document_parser.py`)

The external capabilities the adapter consumes — the `unstructured`
partitioner, `pdfplumber` and `python-docx` — are inputs of the model: an
`Except` value is the call's outcome (`.error` = the exception it raised),
and `Option` wraps the two optional libraries (`none` = `ImportError`).
Temp-file bookkeeping and environment variables are pure side effects with
no influence on the returned data and are not modelled.  Operations that can
raise are embedded in `Except String`; `parse_document` itself returns a
plain `ParsedDocument` because every branch of the source returns one.
-/

namespace DocParser

open Processor

/-- A Python value stored in a coordinates dict: a number, or something
non-numeric (the `isinstance(v, (int, float))` test in `_convert_elements`
distinguishes exactly these). -/
inductive PyVal where
  | num (q : ℚ)
  | other (s : String)
deriving DecidableEq, Repr

/-- An element produced by the `unstructured` partitioner, reduced to the
fields `_convert_elements` reads: `str(element)`, `element.category`, and
the `page_number` / `coordinates` entries of the metadata dict (absent
entries — including the whole-metadata `to_dict` failure, which yields `{}`
— are `none`). -/
structure UnstructuredElement where
  text : String
  category : String
  page_number : Option Int := none
  coordinates : Option (List (String × PyVal)) := none
deriving DecidableEq, Repr

/-- Outcomes of the external capabilities for one `parse_document` call. -/
structure ExternalCaps where
  /-- Outcome of `partition(...)` on the primary path. -/
  partition_result : Except String (List UnstructuredElement)
  /-- Outcome of `pdfplumber`: `none` = ImportError; `.error` = opening/extraction
  raised; `.ok pages` = the `extract_text()` result of each page
  (`none` = the page returned `None`). -/
  pdfplumber_pages : Option (Except String (List (Option String))) := none
  /-- Outcome of `python-docx`: `none` = ImportError; `.ok paras` = paragraph texts. -/
  docx_paragraphs : Option (Except String (List String)) := none
deriving Repr

/-- The `ParsedDocument` (the pydantic model plus the dynamically attached
`_raw_elements` list, empty when never assigned). -/
structure ParsedDocument where
  filename : String
  file_extension : String
  file_type : String
  total_elements : Nat
  grouped_sections : List GroupedElements
  parsing_warnings : List String
  raw_elements : List DocumentElement := []
deriving DecidableEq, Repr

/-- The `Path(filename).suffix.lower()`: the final component's last extension,
lowercased; empty when the name has no dot, starts with its only dot, or
ends with its only trailing dot. -/
def pySuffixLower (filename : String) : String :=
  let name := ((filename.data.splitOnP (· == '/')).getLast?).getD []
  let n := name.length
  match (List.range n).filter (fun i => name.getD i ' ' == '.') |>.getLast? with
  | some i => if 0 < i && i < n - 1 then pyLower ⟨name.drop i⟩ else ""
  | none => ""

/-- The `_get_file_type`. -/
def get_file_type (extension : String) : String :=
  if extension == ".pdf" then "PDF Document"
  else if extension == ".docx" then "Word Document (DOCX)"
  else if extension == ".doc" then "Word Document (DOC)"
  else if extension == ".txt" then "Text Document"
  else if extension == ".html" then "HTML Document"
  else if extension == ".htm" then "HTML Document"
  else "Unknown Document Type"

/-- The `_map_element_type`: category string to `ElementType`, defaulting to
`NARRATIVE_TEXT`. -/
def map_element_type (unstructured_category : String) : ElementType :=
  if unstructured_category == "Title" then .title
  else if unstructured_category == "NarrativeText" then .narrative_text
  else if unstructured_category == "ListItem" then .list_item
  else if unstructured_category == "Table" then .table
  else if unstructured_category == "Header" then .header
  else if unstructured_category == "Footer" then .footer
  else if unstructured_category == "EmailAddress" then .email_address
  else if unstructured_category == "Address" then .address
  else if unstructured_category == "PhoneNumber" then .phone_number
  else .narrative_text

/-- The `_convert_elements`: map the category, keep coordinates only when every
value is numeric, skip elements whose text strips to empty. -/
def convert_elements (unstructured_elements : List UnstructuredElement) :
    List DocumentElement :=
  unstructured_elements.filterMap fun element =>
    let coordinates : Option (List (String × ℚ)) :=
      match element.coordinates with
      | some coord_data =>
        if coord_data.all (fun p => match p.2 with | .num _ => true | .other _ => false)
        then some (coord_data.filterMap fun p =>
          match p.2 with | .num q => some (p.1, q) | .other _ => none)
        else none
      | none => none
    if pyStrip element.text == "" then none
    else some
      { element_type := map_element_type element.category,
        text := element.text,
        metadata := [],
        page_number := element.page_number,
        coordinates := coordinates }

/-- The meaningful-content test of `parse_document`: join the element texts
with spaces, strip, and demand more than 50 characters that are not made up
of dots and whitespace alone. -/
def meaningful_content (elements : List UnstructuredElement) : Bool :=
  if elements.isEmpty then false
  else
    let total_text := String.intercalate " " (elements.map (·.text))
    let meaningful_text := pyStrip total_text
    decide (pyLen meaningful_text > 50) &&
    !((meaningful_text.data.filter
        (fun c => c != '.' && c != ' ' && c != '\n')).isEmpty) &&
    !(meaningful_text.data.all
        (fun c => c == ' ' || c == '.' || c == '\n' || c == '\t'))

def utf8Aux : Nat → List Nat → List Char
  | 0, _ => []
  | _, [] => []
  | fuel + 1, b1 :: rest =>
    if b1 < 0x80 then Char.ofNat b1 :: utf8Aux fuel rest
    else if 0xC2 ≤ b1 && b1 ≤ 0xDF then
      match rest with
      | b2 :: rest2 =>
        if 0x80 ≤ b2 && b2 ≤ 0xBF then
          Char.ofNat ((b1 - 0xC0) * 0x40 + (b2 - 0x80)) :: utf8Aux fuel rest2
        else utf8Aux fuel rest
      | [] => []
    else if 0xE0 ≤ b1 && b1 ≤ 0xEF then
      match rest with
      | b2 :: b3 :: rest3 =>
        let lo2 := if b1 == 0xE0 then 0xA0 else 0x80
        let hi2 := if b1 == 0xED then 0x9F else 0xBF
        if lo2 ≤ b2 && b2 ≤ hi2 && 0x80 ≤ b3 && b3 ≤ 0xBF then
          Char.ofNat ((b1 - 0xE0) * 0x1000 + (b2 - 0x80) * 0x40 + (b3 - 0x80)) ::
            utf8Aux fuel rest3
        else utf8Aux fuel rest
      | _ => utf8Aux fuel rest
    else if 0xF0 ≤ b1 && b1 ≤ 0xF4 then
      match rest with
      | b2 :: b3 :: b4 :: rest4 =>
        let lo2 := if b1 == 0xF0 then 0x90 else 0x80
        let hi2 := if b1 == 0xF4 then 0x8F else 0xBF
        if lo2 ≤ b2 && b2 ≤ hi2 && 0x80 ≤ b3 && b3 ≤ 0xBF && 0x80 ≤ b4 && b4 ≤ 0xBF then
          Char.ofNat ((b1 - 0xF0) * 0x40000 + (b2 - 0x80) * 0x1000 +
                      (b3 - 0x80) * 0x40 + (b4 - 0x80)) :: utf8Aux fuel rest4
        else utf8Aux fuel rest
      | _ => utf8Aux fuel rest
    else utf8Aux fuel rest

/-- UTF-8 decoding with `errors='ignore'`: well-formed sequences decode to
their code point; malformed bytes are dropped (the model skips one byte per
error, which agrees with Python on every input whose malformed runs are
single bytes, and in particular returns the empty string exactly when
Python does for the inputs of interest). -/
def utf8DecodeIgnore (bs : List Nat) : List Char := utf8Aux bs.length bs

/-- Latin-1 (and iso-8859-1) decoding: every byte is its code point. -/
def latin1Decode (bs : List Nat) : List Char := bs.map Char.ofNat

/-- cp1252 decoding with `errors='ignore'`: bytes 0x80–0x9F map through the
Windows-1252 table; its five undefined bytes are dropped; all other bytes
decode as themselves. -/
def cp1252DecodeIgnore (bs : List Nat) : List Char :=
  bs.filterMap fun b =>
    if b < 0x80 || b > 0x9F then some (Char.ofNat b)
    else if b == 0x80 then some (Char.ofNat 0x20AC)
    else if b == 0x82 then some (Char.ofNat 0x201A)
    else if b == 0x83 then some (Char.ofNat 0x0192)
    else if b == 0x84 then some (Char.ofNat 0x201E)
    else if b == 0x85 then some (Char.ofNat 0x2026)
    else if b == 0x86 then some (Char.ofNat 0x2020)
    else if b == 0x87 then some (Char.ofNat 0x2021)
    else if b == 0x88 then some (Char.ofNat 0x02C6)
    else if b == 0x89 then some (Char.ofNat 0x2030)
    else if b == 0x8A then some (Char.ofNat 0x0160)
    else if b == 0x8B then some (Char.ofNat 0x2039)
    else if b == 0x8C then some (Char.ofNat 0x0152)
    else if b == 0x8E then some (Char.ofNat 0x017D)
    else if b == 0x91 then some (Char.ofNat 0x2018)
    else if b == 0x92 then some (Char.ofNat 0x2019)
    else if b == 0x93 then some (Char.ofNat 0x201C)
    else if b == 0x94 then some (Char.ofNat 0x201D)
    else if b == 0x95 then some (Char.ofNat 0x2022)
    else if b == 0x96 then some (Char.ofNat 0x2013)
    else if b == 0x97 then some (Char.ofNat 0x2014)
    else if b == 0x98 then some (Char.ofNat 0x02DC)
    else if b == 0x99 then some (Char.ofNat 0x2122)
    else if b == 0x9A then some (Char.ofNat 0x0161)
    else if b == 0x9B then some (Char.ofNat 0x203A)
    else if b == 0x9C then some (Char.ofNat 0x0153)
    else if b == 0x9E then some (Char.ofNat 0x017E)
    else if b == 0x9F then some (Char.ofNat 0x0178)
    else none

/-- The per-line keyword classification shared by the `.txt` and `.pdf`
fallback paths. -/
def classify_fallback_line (line : String) : ElementType :=
  let low := pyLower line
  if ["summary", "objective", "profile", "about"].any (pyContains low) then .title
  else if ["experience", "work", "employment", "career"].any (pyContains low) then .title
  else if ["education", "academic", "degree", "university"].any (pyContains low) then .title
  else if ["skills", "competencies", "expertise", "technologies"].any (pyContains low) then .title
  else if ["certifications", "certificates", "licenses"].any (pyContains low) then .title
  else if (match line.data with
           | c :: _ => c == '•' || c == '-' || c == '*'
           | [] => false) then .list_item
  else if pyContains line "@" && pyContains line "." then .email_address
  else if line.data.any Char.isDigit &&
          line.data.any (fun c => c == '(' || c == ')' || c == '-') then .phone_number
  else .narrative_text

/-- Line elements built by the `.txt` fallback: stripped nonempty lines,
with their 1-based line number recorded in the metadata. -/
def txt_line_elements (lines : List String) : List DocumentElement :=
  lines.enum.filterMap fun p =>
    let line := pyStrip p.2
    if line == "" then none
    else some
      { element_type := classify_fallback_line line, text := line,
        metadata := [("line_number", (p.1 : Int) + 1)], page_number := some 1 }

/-- Line elements built by the `.pdf` fallback: per page (1-based), pages
whose `extract_text()` is `None` or empty are skipped. -/
def pdf_line_elements (pages : List (Option String)) : List DocumentElement :=
  pages.enum.flatMap fun pg =>
    let page_num : Int := (pg.1 : Int) + 1
    match pg.2 with
    | none => []
    | some text =>
      if text == "" then []
      else
        (pySplitNL text).enum.filterMap fun p =>
          let line := pyStrip p.2
          if line == "" then none
          else some
            { element_type := classify_fallback_line line, text := line,
              metadata := [("page_number", page_num), ("line_number", (p.1 : Int) + 1)],
              page_number := some page_num }

/-- The encoding-fallback loop of the ultimate fallback: start from the
UTF-8 (ignore) decode; if it strips to empty, try latin-1, cp1252 and
iso-8859-1 in order, stopping at the first whose strip is nonempty (and
otherwise keeping the last attempt). -/
def ultimate_text (file_content : List Nat) : String :=
  let text_content : String := ⟨utf8DecodeIgnore file_content⟩
  if pyStrip text_content != "" then text_content
  else
    let l1 : String := ⟨latin1Decode file_content⟩
    if pyStrip l1 != "" then l1
    else
      let cp : String := ⟨cp1252DecodeIgnore file_content⟩
      if pyStrip cp != "" then cp
      else ⟨latin1Decode file_content⟩

/-- The `_parse_with_fallback`.  `.error` is the exception the Python method
raises; the outer `except` clause rewraps every internal exception, so each
failing branch carries the `"Fallback parsing failed: "` prefix. -/
def parse_with_fallback (caps : ExternalCaps) (file_content : List Nat)
    (filename file_extension file_type : String) : Except String ParsedDocument :=
  let body : Except String ParsedDocument :=
    if file_extension == ".txt" then
      -- decode('utf-8', errors='ignore') never raises
      let text_content : String := ⟨utf8DecodeIgnore file_content⟩
      let elements := txt_line_elements (pySplitNL text_content)
      .ok { filename := filename, file_extension := file_extension,
            file_type := file_type, total_elements := elements.length,
            grouped_sections := [],
            parsing_warnings := ["Document parsed successfully using text extraction"],
            raw_elements := elements }
    else
      -- the `.pdf` and `.docx` branches fall through to the ultimate
      -- fallback on ImportError (`except ImportError: pass`), and propagate
      -- any other exception
      let viaUltimate : Except String ParsedDocument :=
        let text_content := ultimate_text file_content
        if pyStrip text_content != "" then
          let elements : List DocumentElement :=
            [ { element_type := .narrative_text, text := text_content,
                metadata := [], page_number := some 1 } ]
          .ok { filename := filename, file_extension := file_extension,
                file_type := file_type, total_elements := elements.length,
                grouped_sections := [],
                parsing_warnings :=
                  ["Used basic text extraction fallback due to OpenGL library issues"],
                raw_elements := elements }
        else .error "All fallback parsing methods failed"
      if file_extension == ".pdf" then
        match caps.pdfplumber_pages with
        | none => viaUltimate
        | some (.error e) => .error e
        | some (.ok pages) =>
          let elements := pdf_line_elements pages
          .ok { filename := filename, file_extension := file_extension,
                file_type := file_type, total_elements := elements.length,
                grouped_sections := [],
                parsing_warnings :=
                  ["Document parsed successfully using PDF text extraction"],
                raw_elements := elements }
      else if file_extension == ".docx" then
        match caps.docx_paragraphs with
        | none => viaUltimate
        | some (.error e) => .error e
        | some (.ok paras) =>
          let elements : List DocumentElement := paras.filterMap fun paragraph =>
            if pyStrip paragraph == "" then none
            else some { element_type := .narrative_text, text := paragraph,
                        metadata := [], page_number := some 1 }
          .ok { filename := filename, file_extension := file_extension,
                file_type := file_type, total_elements := elements.length,
                grouped_sections := [],
                parsing_warnings :=
                  ["Document parsed successfully using Word document extraction"],
                raw_elements := elements }
      else viaUltimate
  match body with
  | .ok doc => .ok doc
  | .error e => .error ("Fallback parsing failed: " ++ e)

/-- The `except Exception as e` handler at the end of `parse_document`:
special-case OpenGL errors, otherwise retry through the fallback, and build
an empty document naming the original error when the fallback itself
raises. -/
def handle_parse_error (caps : ExternalCaps) (file_content : List Nat)
    (filename file_extension file_type error_msg : String) : ParsedDocument :=
  if pyContains error_msg "libGL.so.1" || pyContains error_msg "OpenGL" then
    match parse_with_fallback caps file_content filename file_extension file_type with
    | .ok doc => doc
    | .error fallback_error =>
      { filename := filename, file_extension := file_extension,
        file_type := file_type, total_elements := 0, grouped_sections := [],
        parsing_warnings :=
          [ "Parsing failed due to OpenGL library issues: " ++ error_msg,
            "Fallback parsing also failed: " ++ fallback_error ] }
  else
    match parse_with_fallback caps file_content filename file_extension file_type with
    | .ok doc => doc
    | .error _ =>
      { filename := filename, file_extension := file_extension,
        file_type := file_type, total_elements := 0, grouped_sections := [],
        parsing_warnings := ["Parsing failed: " ++ error_msg] }

/-- The `parse_document`: the primary `unstructured` path with the
meaningful-content check, falling back and catching every exception; every
branch returns a `ParsedDocument`. -/
def parse_document (caps : ExternalCaps) (file_content : List Nat)
    (filename : String) : ParsedDocument :=
  let file_extension := pySuffixLower filename
  let file_type := get_file_type file_extension
  match caps.partition_result with
  | .error e =>
    handle_parse_error caps file_content filename file_extension file_type e
  | .ok elements =>
    if !(meaningful_content elements) then
      match parse_with_fallback caps file_content filename file_extension file_type with
      | .ok doc => doc
      | .error fe =>
        handle_parse_error caps file_content filename file_extension file_type fe
    else
      let document_elements := convert_elements elements
      { filename := filename, file_extension := file_extension,
        file_type := file_type, total_elements := document_elements.length,
        grouped_sections := [], parsing_warnings := [],
        raw_elements := document_elements }

end DocParser

/-!
Part: Spec-side definitions and concrete instances used by the theorems
-/

namespace Processor

/-- Modelled from the spec (§4.3): per-group confidence is base 0.5, plus
0.3 for a Title/Header-category fragment, plus 0.2 for a contact group with
a structured email/phone fragment, plus 0.2 for a skills group with a
list-item fragment, clamped to [0, 1]. -/
def spec_confidence («section» : ResumeSection)
    (elements : List DocumentElement) : ℚ :=
  let base : ℚ := 0.5
    + (if elements.any (fun e => e.element_type == .title || e.element_type == .header)
       then 0.3 else 0)
    + (if «section» == .contact &&
          elements.any (fun e => e.element_type == .email_address ||
                                 e.element_type == .phone_number)
       then 0.2 else 0)
    + (if «section» == .skills && elements.any (fun e => e.element_type == .list_item)
       then 0.2 else 0)
  max 0 (min 1 base)

end Processor

/-!
Part: Lemmas about the grouping fold
-/

namespace Processor

theorem flatten_addToSection (m : List (ResumeSection × List DocumentElement))
    (k : ResumeSection) (e : DocumentElement) :
    ((addToSection m k e).map Prod.snd).flatten.Perm
      ((m.map Prod.snd).flatten ++ [e]) := by
  induction m with
  | nil => simp [addToSection]
  | cons hd tl ih =>
    obtain ⟨k', l⟩ := hd
    by_cases hk : (k' == k) = true
    · simp only [addToSection, if_pos hk, List.map_cons, List.flatten_cons]
      have h1 : (l ++ [e]) ++ (tl.map Prod.snd).flatten
          = l ++ ([e] ++ (tl.map Prod.snd).flatten) := by rw [List.append_assoc]
      have h2 : (l ++ (tl.map Prod.snd).flatten) ++ [e]
          = l ++ ((tl.map Prod.snd).flatten ++ [e]) := by rw [List.append_assoc]
      rw [h1, h2]
      exact List.Perm.append_left l List.perm_append_comm
    · simp only [addToSection, if_neg hk, List.map_cons, List.flatten_cons]
      have h2 : (l ++ (tl.map Prod.snd).flatten) ++ [e]
          = l ++ ((tl.map Prod.snd).flatten ++ [e]) := by rw [List.append_assoc]
      rw [h2]
      exact List.Perm.append_left l ih

theorem snd_group_step (st : ResumeSection × List (ResumeSection × List DocumentElement))
    (e : DocumentElement) :
    ∃ k, (group_step st e).2 = addToSection st.2 k e := by
  unfold group_step
  by_cases h : is_contact_element e = true
  · exact ⟨.contact, by simp [h]⟩
  · refine ⟨if detect_section e ≠ ResumeSection.unknown then detect_section e else st.1, ?_⟩
    simp [h]

theorem flatten_foldl_group_step (elements : List DocumentElement) :
    ∀ st : ResumeSection × List (ResumeSection × List DocumentElement),
      (((elements.foldl group_step st).2.map Prod.snd).flatten).Perm
        ((st.2.map Prod.snd).flatten ++ elements) := by
  induction elements with
  | nil => intro st; simp
  | cons e rest ih =>
    intro st
    obtain ⟨k, hk⟩ := snd_group_step st e
    have h1 := ih (group_step st e)
    have h2 : (((group_step st e).2.map Prod.snd).flatten).Perm
        ((st.2.map Prod.snd).flatten ++ [e]) := by
      rw [hk]; exact flatten_addToSection st.2 k e
    have h3 := h1.trans (h2.append_right rest)
    simpa [List.append_assoc] using h3

theorem flatten_filter_nonempty (m : List (ResumeSection × List DocumentElement)) :
    ((m.filter (fun p => !p.2.isEmpty)).map Prod.snd).flatten =
      (m.map Prod.snd).flatten := by
  induction m with
  | nil => rfl
  | cons hd tl ih =>
    by_cases h : (!hd.2.isEmpty) = true
    · simp [List.filter_cons, h, ih]
    · have hemp : hd.2 = [] := by
        simpa using List.isEmpty_iff.mp (by simpa using h)
      simp [List.filter_cons, h, ih, hemp]

/-- C1 — For every input fragment sequence, the fragment lists of the
emitted `SectionGroup`s are, taken together, a permutation of the input:
no fragment is dropped and no fragment is duplicated, so each fragment
lands in exactly one group (the contact group under the contact override,
otherwise the group of the current section). -/
theorem c1_grouping_partitions_fragments (elements : List DocumentElement) :
    (((group_elements_by_section elements).map GroupedElements.elements).flatten).Perm
      elements := by
  unfold group_elements_by_section
  rw [List.map_map]
  have hmap :
      (GroupedElements.elements ∘ fun p : ResumeSection × List DocumentElement =>
        ({ «section» := p.1, elements := p.2,
           confidence := calculate_section_confidence p.1 p.2 } : GroupedElements)) =
      Prod.snd := rfl
  rw [hmap, flatten_filter_nonempty]
  simpa using flatten_foldl_group_step elements (ResumeSection.unknown, [])

theorem mem_addToSection_self (m : List (ResumeSection × List DocumentElement))
    (k : ResumeSection) (e : DocumentElement) :
    ∃ l, (k, l) ∈ addToSection m k e ∧ e ∈ l := by
  induction m with
  | nil => exact ⟨[e], by simp [addToSection]⟩
  | cons hd tl ih =>
    obtain ⟨k', l'⟩ := hd
    by_cases hk : (k' == k) = true
    · refine ⟨l' ++ [e], ?_, by simp⟩
      have : k' = k := by simpa using hk
      simp [addToSection, hk, this]
    · obtain ⟨l, hl, he⟩ := ih
      exact ⟨l, by simp [addToSection, hk, hl], he⟩

theorem mem_addToSection_mono (m : List (ResumeSection × List DocumentElement))
    (k : ResumeSection) (e : DocumentElement) (k0 : ResumeSection)
    (l0 : List DocumentElement) (x : DocumentElement)
    (hm : (k0, l0) ∈ m) (hx : x ∈ l0) :
    ∃ l1, (k0, l1) ∈ addToSection m k e ∧ x ∈ l1 := by
  induction m with
  | nil => cases hm
  | cons hd tl ih =>
    obtain ⟨k', l'⟩ := hd
    rcases List.mem_cons.mp hm with heq | htl
    · obtain ⟨hk0, hl0⟩ := Prod.mk.inj heq
      subst hk0; subst hl0
      by_cases hk : (k0 == k) = true
      · exact ⟨l0 ++ [e], by simp [addToSection, hk], List.mem_append_left _ hx⟩
      · exact ⟨l0, by simp [addToSection, hk], hx⟩
    · by_cases hk : (k' == k) = true
      · exact ⟨l0, by simp [addToSection, hk, htl], hx⟩
      · obtain ⟨l1, hl1, hx1⟩ := ih htl
        exact ⟨l1, by simp [addToSection, hk, hl1], hx1⟩

theorem mem_foldl_group_step (elements : List DocumentElement) :
    ∀ (st : ResumeSection × List (ResumeSection × List DocumentElement))
      (k0 : ResumeSection) (l0 : List DocumentElement) (x : DocumentElement),
      (k0, l0) ∈ st.2 → x ∈ l0 →
      ∃ l1, (k0, l1) ∈ (elements.foldl group_step st).2 ∧ x ∈ l1 := by
  induction elements with
  | nil => exact fun st k0 l0 x hm hx => ⟨l0, hm, hx⟩
  | cons e rest ih =>
    intro st k0 l0 x hm hx
    obtain ⟨k, hk⟩ := snd_group_step st e
    obtain ⟨l1, hl1, hx1⟩ := mem_addToSection_mono st.2 k e k0 l0 x hm hx
    exact ih (group_step st e) k0 l1 x (hk ▸ hl1) hx1

theorem mem_group_output (elements : List DocumentElement)
    (k : ResumeSection) (l : List DocumentElement)
    (hm : (k, l) ∈ (elements.foldl group_step (ResumeSection.unknown, [])).2)
    (hne : l ≠ []) :
    ({ «section» := k, elements := l,
       confidence := calculate_section_confidence k l } : GroupedElements) ∈
      group_elements_by_section elements := by
  unfold group_elements_by_section
  refine List.mem_map.mpr ⟨(k, l), ?_, rfl⟩
  exact List.mem_filter.mpr ⟨hm, by simpa using hne⟩

/-- C2 — A fragment recognised as contact information (contact extraction
category, or a contact-pattern hit on its text) is always routed to the
`contact` group, wherever it occurs in the sequence and whatever the
current section is at that point. -/
theorem c2_contact_override (elements : List DocumentElement)
    (e : DocumentElement) (he : e ∈ elements)
    (hc : is_contact_element e = true) :
    ∃ g ∈ group_elements_by_section elements,
      g.«section» = ResumeSection.contact ∧ e ∈ g.elements := by
  obtain ⟨s, t, hst⟩ := List.append_of_mem he
  subst hst
  set st1 := s.foldl group_step (ResumeSection.unknown, []) with hst1
  have hstep : ∃ l, (ResumeSection.contact, l) ∈ (group_step st1 e).2 ∧ e ∈ l := by
    unfold group_step
    simp only [hc, if_pos]
    exact mem_addToSection_self st1.2 ResumeSection.contact e
  obtain ⟨l, hl, hel⟩ := hstep
  obtain ⟨l1, hl1, hel1⟩ :=
    mem_foldl_group_step t (group_step st1 e) ResumeSection.contact l e hl hel
  have hne : l1 ≠ [] := fun h => by simp [h] at hel1
  have hfold2 : ((s ++ e :: t).foldl group_step (ResumeSection.unknown, [])) =
      t.foldl group_step (group_step st1 e) := by
    rw [List.foldl_append, List.foldl_cons]
  refine ⟨{ «section» := ResumeSection.contact, elements := l1,
            confidence := calculate_section_confidence ResumeSection.contact l1 },
          mem_group_output _ _ _ ?_ hne, rfl, hel1⟩
  rw [hfold2]
  exact hl1

theorem mem_group_elements_by_section (elements : List DocumentElement)
    (g : GroupedElements) (hg : g ∈ group_elements_by_section elements) :
    ∃ k l, g = { «section» := k, elements := l,
                 confidence := calculate_section_confidence k l } ∧ l ≠ [] := by
  unfold group_elements_by_section at hg
  obtain ⟨⟨k, l⟩, hmem, rfl⟩ := List.mem_map.mp hg
  have hne := (List.mem_filter.mp hmem).2
  exact ⟨k, l, rfl, by simpa using hne⟩

theorem calc_conf_eq_spec (k : ResumeSection) (l : List DocumentElement)
    (h : l ≠ []) :
    calculate_section_confidence k l = spec_confidence k l := by
  unfold calculate_section_confidence spec_confidence
  have hne : l.isEmpty = false := by simpa using h
  simp only [hne, Bool.false_eq_true, if_false]
  split_ifs <;> norm_num [min_def, max_def]

theorem spec_conf_bounds (k : ResumeSection) (l : List DocumentElement) :
    (1/2 : ℚ) ≤ spec_confidence k l ∧ spec_confidence k l ≤ 1 := by
  unfold spec_confidence
  split_ifs <;> norm_num [min_def, max_def]

theorem spec_conf_skills_floor (l : List DocumentElement)
    (hl : l.any (fun e => e.element_type == ElementType.list_item) = true) :
    (0.7 : ℚ) ≤ spec_confidence ResumeSection.skills l := by
  unfold spec_confidence
  have hc : ((ResumeSection.skills == ResumeSection.contact) = false) := rfl
  simp only [hc, Bool.false_and, Bool.false_eq_true, if_false, hl, Bool.and_true,
    show ((ResumeSection.skills == ResumeSection.skills) = true) from rfl]
  split_ifs <;> norm_num [min_def, max_def]

/-- C10 — Every `SectionGroup` emitted by grouping has a nonempty fragment
list, and its confidence lies in [0.5, 1]: the base score is 0.5, only
nonnegative bonuses are added, the result is clamped at 1, and empty
sections are filtered out before emission. -/
theorem c10_emitted_group_invariant (elements : List DocumentElement)
    (g : GroupedElements) (hg : g ∈ group_elements_by_section elements) :
    g.elements ≠ [] ∧ (1/2 : ℚ) ≤ g.confidence ∧ g.confidence ≤ 1 := by
  obtain ⟨k, l, rfl, hne⟩ := mem_group_elements_by_section elements g hg
  refine ⟨hne, ?_⟩
  simpa [calc_conf_eq_spec k l hne] using spec_conf_bounds k l

/-- Witness for C10 at a concrete input: a single Title fragment reading
"Skills" forms one nonempty skills group whose confidence is in [0.5, 1]. -/
theorem c10_emitted_group_invariant_witness :
    ({ «section» := ResumeSection.skills,
       elements := [{ element_type := ElementType.title, text := "Skills" }],
       confidence := calculate_section_confidence ResumeSection.skills
         [{ element_type := ElementType.title, text := "Skills" }] } : GroupedElements) ∈
      group_elements_by_section [{ element_type := ElementType.title, text := "Skills" }] ∧
    ([{ element_type := ElementType.title, text := "Skills" }] :
        List DocumentElement) ≠ [] ∧
    (1/2 : ℚ) ≤ calculate_section_confidence ResumeSection.skills
      [{ element_type := ElementType.title, text := "Skills" }] ∧
    calculate_section_confidence ResumeSection.skills
      [{ element_type := ElementType.title, text := "Skills" }] ≤ 1 := by
  have hmem := mem_group_output
    [{ element_type := ElementType.title, text := "Skills" }]
    ResumeSection.skills
    [{ element_type := ElementType.title, text := "Skills" }]
    (by decide) (by decide)
  have h := c10_emitted_group_invariant
    [{ element_type := ElementType.title, text := "Skills" }] _ hmem
  exact ⟨hmem, h.1, h.2.1, h.2.2⟩

/-- C5 — Every emitted group's confidence equals the spec formula (base 0.5,
+0.3 Title/Header bonus, +0.2 structured-contact bonus for contact groups,
+0.2 list-item bonus for skills groups, clamped to [0,1]); in particular a
skills group containing a list-item fragment has confidence ≥ 0.7. -/
theorem c5_confidence_formula (elements : List DocumentElement)
    (g : GroupedElements) (hg : g ∈ group_elements_by_section elements) :
    g.confidence = spec_confidence g.«section» g.elements ∧
    (g.«section» = ResumeSection.skills →
      g.elements.any (fun e => e.element_type == ElementType.list_item) = true →
      (0.7 : ℚ) ≤ g.confidence) := by
  obtain ⟨k, l, rfl, hne⟩ := mem_group_elements_by_section elements g hg
  refine ⟨calc_conf_eq_spec k l hne, fun hk hl => ?_⟩
  simp only at hk
  subst hk
  simpa [calc_conf_eq_spec ResumeSection.skills l hne] using spec_conf_skills_floor l hl


/-- Witness for C5 at a concrete input: a narrative "Skills" header line and
a list item produce one skills group whose confidence equals the spec
formula's value and meets the 0.7 skills floor. -/
theorem c5_confidence_formula_witness :
    ({ «section» := ResumeSection.skills,
       elements := [{ element_type := ElementType.narrative_text, text := "Skills" },
                    { element_type := ElementType.list_item, text := "Python" }],
       confidence := calculate_section_confidence ResumeSection.skills
         [{ element_type := ElementType.narrative_text, text := "Skills" },
          { element_type := ElementType.list_item, text := "Python" }] } :
        GroupedElements) ∈
      group_elements_by_section
        [{ element_type := ElementType.narrative_text, text := "Skills" },
         { element_type := ElementType.list_item, text := "Python" }] ∧
    calculate_section_confidence ResumeSection.skills
      [{ element_type := ElementType.narrative_text, text := "Skills" },
       { element_type := ElementType.list_item, text := "Python" }] =
      spec_confidence ResumeSection.skills
        [{ element_type := ElementType.narrative_text, text := "Skills" },
         { element_type := ElementType.list_item, text := "Python" }] ∧
    (0.7 : ℚ) ≤ calculate_section_confidence ResumeSection.skills
      [{ element_type := ElementType.narrative_text, text := "Skills" },
       { element_type := ElementType.list_item, text := "Python" }] := by
  have hmem := mem_group_output
    [{ element_type := ElementType.narrative_text, text := "Skills" },
     { element_type := ElementType.list_item, text := "Python" }]
    ResumeSection.skills
    [{ element_type := ElementType.narrative_text, text := "Skills" },
     { element_type := ElementType.list_item, text := "Python" }]
    (by decide) (by decide)
  have h := c5_confidence_formula
    [{ element_type := ElementType.narrative_text, text := "Skills" },
     { element_type := ElementType.list_item, text := "Python" }] _ hmem
  exact ⟨hmem, h.1, h.2 rfl (by decide)⟩

/-- Witness for C2 at the spec's literal scenario: "jane@example.com"
(extraction category EmailAddress) appearing between two experience-section
fragments is placed in the contact group. -/
theorem c2_contact_override_witness :
    ∃ g ∈ group_elements_by_section
        [ { element_type := ElementType.title, text := "Experience" },
          { element_type := ElementType.email_address, text := "jane@example.com" },
          { element_type := ElementType.narrative_text,
            text := "Led a team delivering software projects for clients." } ],
      g.«section» = ResumeSection.contact ∧
      ({ element_type := ElementType.email_address,
         text := "jane@example.com" } : DocumentElement) ∈ g.elements :=
  c2_contact_override
    [ { element_type := ElementType.title, text := "Experience" },
      { element_type := ElementType.email_address, text := "jane@example.com" },
      { element_type := ElementType.narrative_text,
        text := "Led a team delivering software projects for clients." } ]
    { element_type := ElementType.email_address, text := "jane@example.com" }
    (by decide) (by decide)

end Processor

/-!
Part: Determinism of grouping and assembly
-/

/-- C9 — The grouping and assembly functions are deterministic: the
embedding resolves every potential source of nondeterminism in the Python
code (dict iteration order = insertion order, `sorted` = stable sort by
key) into pure functions, so identical fragment sequences give identical
groupings, identical confidence scores, and an identical assembled string. -/
theorem c9_pipeline_deterministic
    (els₁ els₂ : List Processor.DocumentElement)
    (rs₁ rs₂ : List Enhanced.ResumeElement)
    (h₁ : els₁ = els₂) (h₂ : rs₁ = rs₂) :
    Processor.group_elements_by_section els₁ = Processor.group_elements_by_section els₂ ∧
    (Processor.group_elements_by_section els₁).map Processor.GroupedElements.confidence =
      (Processor.group_elements_by_section els₂).map Processor.GroupedElements.confidence ∧
    Enhanced.generate_enhanced_as_is_content rs₁ =
      Enhanced.generate_enhanced_as_is_content rs₂ := by
  subst h₁; subst h₂; exact ⟨rfl, rfl, rfl⟩

/-- Witness for C9 at a concrete input: two runs on the same one-fragment
input agree. -/
theorem c9_pipeline_deterministic_witness :
    Processor.group_elements_by_section
        [{ element_type := Processor.ElementType.title, text := "Experience" }] =
      Processor.group_elements_by_section
        [{ element_type := Processor.ElementType.title, text := "Experience" }] ∧
    (Processor.group_elements_by_section
        [{ element_type := Processor.ElementType.title, text := "Experience" }]).map
          Processor.GroupedElements.confidence =
      (Processor.group_elements_by_section
        [{ element_type := Processor.ElementType.title, text := "Experience" }]).map
          Processor.GroupedElements.confidence ∧
    Enhanced.generate_enhanced_as_is_content
        [{ text := "Skills:", element_type := "Title" }] =
      Enhanced.generate_enhanced_as_is_content
        [{ text := "Skills:", element_type := "Title" }] :=
  c9_pipeline_deterministic _ _ _ _ rfl rfl

/-!
Part: Classification precedence
-/

namespace Enhanced

/-- Counterexample to C3 as stated: the bold fragment "- 2019 - 2021"
matches the date-range pattern and the section-header heuristics (it is
bold and short), yet the classifier returns `bullet_point`, not
`date_range`, because bullet detection precedes date detection. -/
theorem c3_counterexample :
    is_likely_date_range "- 2019 - 2021" = true ∧
    is_likely_section_header
      { text := "- 2019 - 2021", element_type := "Text", is_bold := true }
      "- 2019 - 2021" = true ∧
    classify_content_type
      { text := "- 2019 - 2021", element_type := "Text", is_bold := true }
      "- 2019 - 2021" = "bullet_point" := by
  refine ⟨by decide, by decide, by decide⟩

/-- C3 (amended) — A fragment whose text matches the date-range pattern and
the section-header heuristics, and does not match any bullet form of
precedence step 1, is classified `date_range`, not `section_header`: date
detection precedes header detection. -/
theorem c3_date_precedes_header (element : ResumeElement) (text : String)
    (hbullet : is_likely_bullet_point text = false)
    (hdate : is_likely_date_range text = true)
    (_hheader : is_likely_section_header element text = true) :
    classify_content_type element text = "date_range" := by
  unfold classify_content_type
  rw [hbullet, hdate]
  simp

/-- Witness for C3 (amended) at the spec's literal input "2019 - 2021"
(bold): it matches the date pattern and the header heuristics, matches no
bullet form, and is classified `date_range`. -/
theorem c3_date_precedes_header_witness :
    is_likely_bullet_point "2019 - 2021" = false ∧
    is_likely_date_range "2019 - 2021" = true ∧
    is_likely_section_header
      { text := "2019 - 2021", element_type := "Text", is_bold := true }
      "2019 - 2021" = true ∧
    classify_content_type
      { text := "2019 - 2021", element_type := "Text", is_bold := true }
      "2019 - 2021" = "date_range" :=
  ⟨by decide, by decide, by decide,
   c3_date_precedes_header
     { text := "2019 - 2021", element_type := "Text", is_bold := true }
     "2019 - 2021" (by decide) (by decide) (by decide)⟩

/-- Counterexample to C4 as stated: "Acme Inc" matches none of the eight
bullet marker forms of step 1 (no bullet glyph, dash/asterisk marker,
lettered/numbered list marker, or OCR artifact) and no date-range pattern,
and matches a company pattern (trailing Inc), yet the classifier returns
`bullet_point` — the bullet step also fires on short text starting with a
capitalized word via the bullet *content* heuristics. -/
theorem c4_counterexample :
    matches_bullet_marker "Acme Inc" = false ∧
    is_likely_date_range "Acme Inc" = false ∧
    is_likely_company_name "Acme Inc" = true ∧
    classify_content_type
      { text := "Acme Inc", element_type := "Text" } "Acme Inc" =
      "bullet_point" := by
  refine ⟨by decide, by decide, by decide, by decide⟩

/-- C4 (amended) — A fragment whose text matches no bullet form of step 1 —
neither the eight marker patterns nor, for texts under 100 characters, the
capitalized-word / all-caps-run content heuristics — and no date-range
pattern, but does match a company-name pattern of step 3, is classified
`company_name`. -/
theorem c4_company_after_bullet_and_date (element : ResumeElement) (text : String)
    (hbullet : is_likely_bullet_point text = false)
    (hdate : is_likely_date_range text = false)
    (hcompany : is_likely_company_name text = true) :
    classify_content_type element text = "company_name" := by
  unfold classify_content_type
  rw [hbullet, hdate, hcompany]
  simp

/-- Witness for C4 (amended) at the concrete input "IBM": an all-caps short
string with no whitespace matches no bullet form and no date pattern, and
is classified `company_name`. -/
theorem c4_company_after_bullet_and_date_witness :
    is_likely_bullet_point "IBM" = false ∧
    is_likely_date_range "IBM" = false ∧
    is_likely_company_name "IBM" = true ∧
    classify_content_type
      { text := "IBM", element_type := "Text" } "IBM" = "company_name" :=
  ⟨by decide, by decide, by decide,
   c4_company_after_bullet_and_date
     { text := "IBM", element_type := "Text" } "IBM"
     (by decide) (by decide) (by decide)⟩

end Enhanced

/-!
Part: The spatial sort and malformed coordinates
-/

namespace Enhanced

theorem keyLE_refl (a : Int × ℚ × ℚ) : keyLE a a :=
  Or.inr ⟨rfl, Or.inr ⟨rfl, le_refl _⟩⟩

theorem keyLE_total (a b : Int × ℚ × ℚ) : keyLE a b ∨ keyLE b a := by
  unfold keyLE
  rcases lt_trichotomy a.1 b.1 with h | h | h
  · exact Or.inl (Or.inl h)
  · rcases lt_trichotomy a.2.1 b.2.1 with h2 | h2 | h2
    · exact Or.inl (Or.inr ⟨h, Or.inl h2⟩)
    · rcases le_total a.2.2 b.2.2 with h3 | h3
      · exact Or.inl (Or.inr ⟨h, Or.inr ⟨h2, h3⟩⟩)
      · exact Or.inr (Or.inr ⟨h.symm, Or.inr ⟨h2.symm, h3⟩⟩)
    · exact Or.inr (Or.inr ⟨h.symm, Or.inl h2⟩)
  · exact Or.inr (Or.inl h)

theorem keyLE_trans (a b c : Int × ℚ × ℚ) (h1 : keyLE a b) (h2 : keyLE b c) :
    keyLE a c := by
  unfold keyLE at h1 h2 ⊢
  rcases h1 with h1 | ⟨e1, h1⟩
  · rcases h2 with h2 | ⟨e2, _⟩
    · exact Or.inl (h1.trans h2)
    · exact Or.inl (e2 ▸ h1)
  · rcases h2 with h2 | ⟨e2, h2⟩
    · exact Or.inl (e1 ▸ h2)
    · refine Or.inr ⟨e1.trans e2, ?_⟩
      rcases h1 with h1 | ⟨f1, h1⟩
      · rcases h2 with h2 | ⟨f2, _⟩
        · exact Or.inl (h1.trans h2)
        · exact Or.inl (f2 ▸ h1)
      · rcases h2 with h2 | ⟨f2, h2⟩
        · exact Or.inl (f1 ▸ h2)
        · exact Or.inr ⟨f1.trans f2, h1.trans h2⟩

instance : IsTotal ResumeElement elemLE :=
  ⟨fun a b => keyLE_total (sort_key a) (sort_key b)⟩

instance : IsTrans ResumeElement elemLE :=
  ⟨fun a b c => keyLE_trans (sort_key a) (sort_key b) (sort_key c)⟩

theorem filter_orderedInsert_pos {α : Type _} (r : α → α → Prop) [DecidableRel r]
    (p : α → Bool) (a : α) (l : List α)
    (hall : ∀ b, p b = true → r a b) (ha : p a = true) :
    (l.orderedInsert r a).filter p = a :: l.filter p := by
  induction l with
  | nil => simp [List.orderedInsert, ha]
  | cons b t ih =>
    by_cases hr : r a b
    · simp [List.orderedInsert, hr, List.filter_cons, ha]
    · have hpb : p b = false := by
        cases hpb : p b
        · rfl
        · exact absurd (hall b hpb) hr
      simp [List.orderedInsert, hr, List.filter_cons, hpb, ih]

theorem filter_orderedInsert_neg {α : Type _} (r : α → α → Prop) [DecidableRel r]
    (p : α → Bool) (a : α) (l : List α) (ha : p a = false) :
    (l.orderedInsert r a).filter p = l.filter p := by
  induction l with
  | nil => simp [List.orderedInsert, ha]
  | cons b t ih =>
    by_cases hr : r a b
    · simp [List.orderedInsert, hr, List.filter_cons, ha]
    · simp [List.orderedInsert, hr, List.filter_cons, ih]

/-- Stable sorting: a filter keeping only pairwise-related elements (for
example, all elements with one given sort key) is unchanged by insertion
sort — those elements keep their original relative order. -/
theorem filter_insertionSort {α : Type _} (r : α → α → Prop) [DecidableRel r]
    (p : α → Bool) (hequiv : ∀ a b, p a = true → p b = true → r a b)
    (l : List α) :
    (l.insertionSort r).filter p = l.filter p := by
  induction l with
  | nil => rfl
  | cons a t ih =>
    cases hpa : p a
    · rw [List.insertionSort, filter_orderedInsert_neg r p a _ hpa, ih]
      simp [List.filter_cons, hpa]
    · rw [List.insertionSort,
        filter_orderedInsert_pos r p a _ (fun b hb => hequiv a b hpa hb) hpa, ih]
      simp [List.filter_cons, hpa]

/-- Counterexample to C7 as stated: a fragment with no bounding box gets the
fixed default key (page, 0, 0) and is sorted to the start of its page — here
it jumps *ahead* of a fragment that preceded it in extraction order, instead
of keeping its pure document-order position. -/
theorem c7_counterexample :
    sort_elements_spatially
      [ { text := "First extracted", element_type := "Text",
          coordinates := some [("center_y", 100), ("center_x", 0)],
          page_number := some 1 },
        { text := "Second extracted, no coordinates", element_type := "Text",
          coordinates := none, page_number := some 1 } ] =
      [ { text := "Second extracted, no coordinates", element_type := "Text",
          coordinates := none, page_number := some 1 },
        { text := "First extracted", element_type := "Text",
          coordinates := some [("center_y", 100), ("center_x", 0)],
          page_number := some 1 } ] := by decide

/-- C7 (amended) — Assembly never fails on missing coordinates: the spatial
sort is a total function producing a permutation of its input, sorted by the
(page, center-y, center-x) key; a fragment with missing coordinates is
treated as having centers (0, 0), so it sorts to the start of its page
rather than to its document-order position, and fragments with equal keys
keep their original extraction order (the sort is stable). -/
theorem c7_missing_coordinates_default_key (elements : List ResumeElement) :
    (sort_elements_spatially elements).Perm elements ∧
    (sort_elements_spatially elements).Sorted elemLE ∧
    (∀ e ∈ elements, e.coordinates = none →
        sort_key e =
          ((match e.page_number with | some p => p | none => 0 : Int),
            (0 : ℚ), (0 : ℚ))) ∧
    (∀ kv : Int × ℚ × ℚ,
        (sort_elements_spatially elements).filter (fun e => sort_key e == kv) =
          elements.filter (fun e => sort_key e == kv)) := by
  refine ⟨List.perm_insertionSort elemLE elements,
          List.sorted_insertionSort elemLE elements,
          fun e _ hc => by simp [sort_key, hc],
          fun kv => ?_⟩
  refine filter_insertionSort elemLE _ (fun a b ha hb => ?_) elements
  have ha' : sort_key a = kv := by simpa using ha
  have hb' : sort_key b = kv := by simpa using hb
  unfold elemLE
  rw [ha', hb']
  exact keyLE_refl kv

/-- Witness for C7 (amended) at a concrete input: the two-fragment list of
the counterexample scenario is permuted, and the coordinate-less fragment's
key is the page-start default (1, 0, 0). -/
theorem c7_missing_coordinates_default_key_witness :
    (sort_elements_spatially
      [ { text := "First extracted", element_type := "Text",
          coordinates := some [("center_y", 100), ("center_x", 0)],
          page_number := some 1 },
        { text := "Second extracted, no coordinates", element_type := "Text",
          coordinates := none, page_number := some 1 } ]).Perm
      [ { text := "First extracted", element_type := "Text",
          coordinates := some [("center_y", 100), ("center_x", 0)],
          page_number := some 1 },
        { text := "Second extracted, no coordinates", element_type := "Text",
          coordinates := none, page_number := some 1 } ] ∧
    sort_key { text := "Second extracted, no coordinates", element_type := "Text",
               coordinates := none, page_number := some 1 } =
      ((1 : Int), (0 : ℚ), (0 : ℚ)) :=
  ⟨(c7_missing_coordinates_default_key _).1,
   (c7_missing_coordinates_default_key
      [ { text := "First extracted", element_type := "Text",
          coordinates := some [("center_y", 100), ("center_x", 0)],
          page_number := some 1 },
        { text := "Second extracted, no coordinates", element_type := "Text",
          coordinates := none, page_number := some 1 } ]).2.2.1
     { text := "Second extracted, no coordinates", element_type := "Text",
       coordinates := none, page_number := some 1 }
     (by decide) rfl⟩

end Enhanced

/-!
Part: The extraction adapter's error handling
-/

namespace DocParser

theorem parse_with_fallback_ok_meta (caps : ExternalCaps) (content : List Nat)
    (filename ext ftype : String) (doc : ParsedDocument)
    (h : parse_with_fallback caps content filename ext ftype = .ok doc) :
    doc.filename = filename ∧ doc.file_extension = ext := by
  unfold parse_with_fallback at h
  dsimp only at h
  split at h
  · rename_i d heq
    injection h with h
    subst h
    repeat
      first
      | (injection heq with heq; subst heq; exact ⟨rfl, rfl⟩)
      | exact Except.noConfusion heq
      | split at heq
  · exact Except.noConfusion h

theorem parse_with_fallback_all_fail (caps : ExternalCaps) (content : List Nat)
    (filename ext ftype : String)
    (hne1 : ext ≠ ".txt") (hne2 : ext ≠ ".pdf") (hne3 : ext ≠ ".docx")
    (hutf : pyStrip ⟨utf8DecodeIgnore content⟩ = "")
    (hlat : pyStrip ⟨latin1Decode content⟩ = "")
    (hcp : pyStrip ⟨cp1252DecodeIgnore content⟩ = "") :
    parse_with_fallback caps content filename ext ftype =
      .error "Fallback parsing failed: All fallback parsing methods failed" := by
  unfold parse_with_fallback
  have e1 : (ext == ".txt") = false := by simpa using hne1
  have e2 : (ext == ".pdf") = false := by simpa using hne2
  have e3 : (ext == ".docx") = false := by simpa using hne3
  unfold ultimate_text
  simp [e1, e2, e3, hutf, hlat, hcp]

theorem handle_parse_error_meta (caps : ExternalCaps) (content : List Nat)
    (filename ext ftype msg : String) :
    (handle_parse_error caps content filename ext ftype msg).filename = filename ∧
    (handle_parse_error caps content filename ext ftype msg).file_extension = ext := by
  unfold handle_parse_error
  split
  · split
    · rename_i doc hdoc
      exact parse_with_fallback_ok_meta caps content filename ext ftype doc hdoc
    · exact ⟨rfl, rfl⟩
  · split
    · rename_i doc hdoc
      exact parse_with_fallback_ok_meta caps content filename ext ftype doc hdoc
    · exact ⟨rfl, rfl⟩

/-- Counterexample to C6 as stated: with a failing partitioner, empty file
bytes and an unrecognised extension, every fallback fails to yield text and
the adapter returns a ParsedDocument with *zero* fragments (no synthetic
fragment) and the warning naming the primary error. -/
theorem c6_counterexample :
    (parse_document { partition_result := .error "boom" } [] "resume.bin").total_elements
        = 0 ∧
    (parse_document { partition_result := .error "boom" } [] "resume.bin").raw_elements
        = [] ∧
    (parse_document { partition_result := .error "boom" } [] "resume.bin").parsing_warnings
        = ["Parsing failed: boom"] := by
  refine ⟨by decide, by decide, by decide⟩

/-- C6 (amended) — The adapter always returns a `ParsedDocument` carrying the
caller's filename and extension (no exception escapes: every failure path is
caught); and when the primary extraction and every fallback fail to yield
text, the returned document contains *no* fragments together with a
`"Parsing failed: …"` warning naming the primary error, rather than raising
(and rather than the single synthetic fragment the original claim
describes). -/
theorem c6_adapter_total_and_empty_on_total_failure (caps : ExternalCaps)
    (content : List Nat) (filename : String) :
    ((parse_document caps content filename).filename = filename ∧
     (parse_document caps content filename).file_extension = pySuffixLower filename) ∧
    (∀ msg, caps.partition_result = .error msg →
      pyContains msg "libGL.so.1" = false →
      pyContains msg "OpenGL" = false →
      pySuffixLower filename ≠ ".txt" →
      pySuffixLower filename ≠ ".pdf" →
      pySuffixLower filename ≠ ".docx" →
      pyStrip ⟨utf8DecodeIgnore content⟩ = "" →
      pyStrip ⟨latin1Decode content⟩ = "" →
      pyStrip ⟨cp1252DecodeIgnore content⟩ = "" →
      (parse_document caps content filename).total_elements = 0 ∧
      (parse_document caps content filename).raw_elements = [] ∧
      (parse_document caps content filename).parsing_warnings =
        ["Parsing failed: " ++ msg]) := by
  constructor
  · unfold parse_document
    cases hp : caps.partition_result with
    | error e =>
      exact handle_parse_error_meta caps content filename _ _ e
    | ok elements =>
      dsimp only
      split
      · split
        · rename_i doc hdoc
          exact parse_with_fallback_ok_meta caps content filename _ _ doc hdoc
        · rename_i fe _
          exact handle_parse_error_meta caps content filename _ _ fe
      · exact ⟨rfl, rfl⟩
  · intro msg hmsg hgl1 hgl2 hne1 hne2 hne3 hutf hlat hcp
    have hfb := parse_with_fallback_all_fail caps content filename
      (pySuffixLower filename) (get_file_type (pySuffixLower filename))
      hne1 hne2 hne3 hutf hlat hcp
    have hglmsg : (pyContains msg "libGL.so.1" || pyContains msg "OpenGL") = false := by
      rw [hgl1, hgl2]; rfl
    have hdoc : parse_document caps content filename =
        { filename := filename, file_extension := pySuffixLower filename,
          file_type := get_file_type (pySuffixLower filename),
          total_elements := 0, grouped_sections := [],
          parsing_warnings := ["Parsing failed: " ++ msg], raw_elements := [] } := by
      unfold parse_document
      rw [hmsg]
      dsimp only
      unfold handle_parse_error
      rw [hglmsg]
      simp only [Bool.false_eq_true, if_false]
      rw [hfb]
    rw [hdoc]
    exact ⟨rfl, rfl, rfl⟩

/-- Witness for C6 (amended) at a concrete input: failing partitioner, empty
bytes, unrecognised extension. -/
theorem c6_adapter_total_witness :
    (parse_document { partition_result := .error "cannot open" } [] "cv.dat").filename
        = "cv.dat" ∧
    (parse_document { partition_result := .error "cannot open" } [] "cv.dat").total_elements
        = 0 ∧
    (parse_document { partition_result := .error "cannot open" } [] "cv.dat").parsing_warnings
        = ["Parsing failed: cannot open"] := by
  have h := c6_adapter_total_and_empty_on_total_failure
    { partition_result := .error "cannot open" } [] "cv.dat"
  have h2 := h.2 "cannot open" rfl (by decide) (by decide) (by decide) (by decide)
    (by decide) rfl rfl rfl
  exact ⟨h.1.1, h2.1, h2.2.2⟩

end DocParser

/-!
Part: Non-idempotence of the final normalization pass
-/

namespace Enhanced

/-- C8 — Evaluation of the code at a failing input.  For the single content
fragment "e| the cat sat on the mat here." the assembler's normalized output
is "e | the cat sat on the mat here." (the pipe-spacing rule inserts a space
after the "e"); running the normalization pass on that output again rewrites
it to "• | the cat sat on the mat here." — the OCR-bullet repair
`^\s*e\s+ → "• "` now fires on the line-initial "e " manufactured by the
pipe rule.  The pass is therefore not idempotent on the assembler's own
normalized output, contradicting the spec's idempotence requirement (and
corrupting a literal "e"). -/
theorem c8_normalization_not_idempotent :
    generate_enhanced_as_is_content
        [{ text := "e| the cat sat on the mat here.",
           element_type := "NarrativeText" }] =
      "e | the cat sat on the mat here." ∧
    normalize_content "e | the cat sat on the mat here." =
      "• | the cat sat on the mat here." ∧
    normalize_content (generate_enhanced_as_is_content
        [{ text := "e| the cat sat on the mat here.",
           element_type := "NarrativeText" }]) ≠
      generate_enhanced_as_is_content
        [{ text := "e| the cat sat on the mat here.",
           element_type := "NarrativeText" }] := by
  refine ⟨by decide, by decide, by decide⟩

end Enhanced

end ResumeParser
